import Mathlib

/-!
Verification of the shareholder-tracker search slice.

The development embeds, as executable Lean definitions:
- the POST handler of web/app/api/investments/route.ts (query construction,
  filter predicates, the pagination policy and the total count);
- the two revisions of the search client controller in the Home page
  component (search-text change handling and request construction);
- the post helper of web/services/http.js.

Machine strings are Lean String values; JavaScript truthiness of the nullable
string filters and the JavaScript string coercion of null are modelled
explicitly. The datastore is modelled by the list of rows of the
current_investments view, given in the ORDER BY order requested by the query
(the database performs the sort; filtering a sorted list equals sorting the
filtered list because the predicates are row-wise).
-/

/-- JavaScript truthiness of a nullable string: null and the empty string are
falsy, every other string is truthy. Used for the six filter fields. -/
def truthy : Option String → Bool
  | none => false
  | some s => s != ""

/-- JavaScript string coercion of a nullable string, as performed by the
template concatenation in the route: null becomes the string null. -/
def jsString : Option String → String
  | none => "null"
  | some s => s

/-- Character-list test: the first list starts with the second. -/
def charsStartWith : List Char → List Char → Bool
  | _, [] => true
  | [], _ :: _ => false
  | a :: as, b :: bs => a == b && charsStartWith as bs

/-- Character-list test: the needle occurs as a contiguous run in the hay. -/
def charsContain (needle : List Char) : List Char → Bool
  | [] => charsStartWith [] needle
  | a :: t => charsStartWith (a :: t) needle || charsContain needle t

/-- Case-insensitive substring test. Models a PostgreSQL ILIKE match against
the pattern obtained by wrapping the needle in percent wildcards, for needle
values free of the wildcard metacharacters (as in every predicate the route
builds). -/
def containsCI (hay needle : String) : Bool :=
  charsContain (needle.data.map Char.toLower) (hay.data.map Char.toLower)

/-- Whitespace tokenizer worker: accumulates the current token in reverse. -/
def wsTokensAux (acc : List Char) : List Char → List String
  | [] => if acc.isEmpty then [] else [String.mk acc.reverse]
  | c :: rest =>
    if c.isWhitespace then
      (if acc.isEmpty then [] else [String.mk acc.reverse]) ++ wsTokensAux [] rest
    else wsTokensAux (c :: acc) rest

/-- The maximal whitespace-free tokens of a string, in order: runs of
whitespace collapse and both ends are trimmed. -/
def wsTokens (s : String) : List String := wsTokensAux [] s.data

/-- The request DTO InvestmentSearchRequest of web/types (types file,
InvestmentSearchRequest). The six filters are nullable strings; limit and
page are required numbers, declared by the data model as a positive page
size and a 1-based page number, so they are embedded as naturals. -/
structure InvestmentSearchRequest where
  cik : Option String
  cusip : Option String
  ticker : Option String
  issuer : Option String
  investor : Option String
  document : Option String
  limit : Nat
  page : Nat
  sortColumn : String
  sortDirection : String
deriving DecidableEq, Repr

/-- The response row type Investment of web/types, the flattened view row
selected by the route (all numeric-looking columns are transported as text;
other_investor_names is an array of names). -/
structure Investment where
  stock_id : String
  investor_cik : String
  investor_name : String
  investor_former_names : String
  investor_country : String
  investor_region : String
  other_investor_names : List String
  form_accession_number : String
  form_report_date : String
  form_filing_date : String
  stock_issuer : String
  stock_cusip : String
  stock_ticker : String
  stock_value_x1000 : String
  stock_shares_prn_amt : String
  stock_prn_amt : String
  stock_voting_auth_sole : String
  stock_voting_auth_shared : String
  stock_voting_auth_none : String
  form_url : String
deriving DecidableEq, Repr

/-- The response DTO InvestmentSearchResult of web/types: a page of rows and
the reported total number of matching rows. -/
structure InvestmentSearchResult where
  data : List Investment
  total : Nat
deriving DecidableEq, Repr

/-- route.ts line 36: offset is limit times page, computed on the raw
1-based page number. -/
def offset (searchParams : InvestmentSearchRequest) : Nat :=
  searchParams.limit * searchParams.page

/-- route.ts lines 37 to 43: a request has filters when any of the six
filter fields is truthy, in the source order cik, ticker, cusip, investor,
issuer, document. -/
def hasFilters (searchParams : InvestmentSearchRequest) : Bool :=
  truthy searchParams.cik || truthy searchParams.ticker ||
  truthy searchParams.cusip || truthy searchParams.investor ||
  truthy searchParams.issuer || truthy searchParams.document

/-- The WHERE clause of the raw query, route.ts lines 68 to 74, evaluated on
one view row. Each conjunct is appended only when its filter is truthy. The
investor conjunct matches the concatenation of investor_name, a space and
investor_former_names against the cusip parameter, exactly as the source
interpolates searchParams.cusip on line 72. The document conjunct applies
the text-search operator, abstracted as the parameter tsMatch because its
semantics live in the datastore; the string handed to it is the raw
document parameter. -/
def rowMatches (tsMatch : String → Investment → Bool)
    (searchParams : InvestmentSearchRequest) (row : Investment) : Bool :=
  (if truthy searchParams.cik then
    containsCI row.investor_cik (jsString searchParams.cik) else true) &&
  (if truthy searchParams.ticker then
    containsCI row.stock_ticker (jsString searchParams.ticker) else true) &&
  (if truthy searchParams.cusip then
    containsCI row.stock_cusip (jsString searchParams.cusip) else true) &&
  (if truthy searchParams.investor then
    containsCI (row.investor_name ++ " " ++ row.investor_former_names)
      (jsString searchParams.cusip) else true) &&
  (if truthy searchParams.issuer then
    containsCI row.stock_issuer (jsString searchParams.issuer) else true) &&
  (if truthy searchParams.document then
    tsMatch (jsString searchParams.document) row else true)

/-- Datastore evaluation of the raw query of route.ts lines 45 to 77 over
the view rows (already in the requested ORDER BY order): apply the WHERE
clause; the LIMIT and OFFSET clause is attached only when the request has no
filters (line 76). -/
def runQuery (view : List Investment) (tsMatch : String → Investment → Bool)
    (searchParams : InvestmentSearchRequest) : List Investment :=
  let filtered := view.filter (rowMatches tsMatch searchParams)
  if hasFilters searchParams then filtered
  else (filtered.drop (offset searchParams)).take searchParams.limit

/-- The POST handler of route.ts lines 30 to 96: run the raw query; without
filters the total is the full count of the view and the data is the query
result; with filters the total is the length of the unpaginated result and
the data is the in-memory slice from offset to offset plus limit. -/
def POST (view : List Investment) (tsMatch : String → Investment → Bool)
    (searchParams : InvestmentSearchRequest) : InvestmentSearchResult :=
  let searchResults := runQuery view tsMatch searchParams
  if !(hasFilters searchParams) then
    { data := searchResults, total := view.length }
  else
    { data := (searchResults.drop (offset searchParams)).take searchParams.limit,
      total := searchResults.length }

/-- route.ts line 32: the sortColumn string is wrapped as a raw SQL fragment
with no validation, so the fragment is the client-supplied string itself. -/
def sortColSql (searchParams : InvestmentSearchRequest) : String :=
  searchParams.sortColumn

/-- route.ts lines 33 to 35: the direction fragment is ASC exactly when
sortDirection equals the string ascending, otherwise DESC. -/
def sortDirectionSql (searchParams : InvestmentSearchRequest) : String :=
  if searchParams.sortDirection == "ascending" then "ASC" else "DESC"

/-- The ORDER BY fragment of the query, route.ts line 75. -/
def orderByClause (searchParams : InvestmentSearchRequest) : String :=
  "ORDER BY " ++ sortColSql searchParams ++ " " ++ sortDirectionSql searchParams

/-- The argument handed to to_tsquery on route.ts line 74: the raw document
parameter, present only when that filter is truthy. -/
def tsqueryArg (searchParams : InvestmentSearchRequest) : Option String :=
  if truthy searchParams.document then some (jsString searchParams.document)
  else none

/-- Modelled from the spec for comparison with tsqueryArg: the described
document-phrase normalization, which the route does not perform. Whitespace
runs collapse, both ends are trimmed, the tokens are joined with the AND
operator of tsquery and the final token carries a trailing star for a
prefix-match. -/
def specNormalizedTsquery (phrase : String) : String :=
  match (wsTokens phrase).reverse with
  | [] => ""
  | last :: earlier =>
      String.intercalate " & " (earlier.reverse ++ [last ++ ":*"])

/-- The outcome of one handler invocation. The source handler of route.ts
always answers with a JSON payload; the validationError alternative is the
error kind named by the contract of the spec and is present in the type only
so that its absence from the source is statable. The source constructs no
value of it. -/
inductive HandlerResponse where
  | ok (payload : InvestmentSearchResult)
  | validationError (message : String)
deriving DecidableEq, Repr

/-- The full handler response: route.ts line 95 unconditionally returns the
payload of the executed query as JSON. -/
def POSTResponse (view : List Investment) (tsMatch : String → Investment → Bool)
    (searchParams : InvestmentSearchRequest) : HandlerResponse :=
  HandlerResponse.ok (POST view tsMatch searchParams)

/-- UI state of the first revision of the Home page component (the revision
with the isNewSearch flag and the clearable input). Only the fields the
search effect reads are modelled. -/
structure HomeState1 where
  currentPage : Nat
  searchTerm : String
  sortColumn : String
  sortDirection : String
  recordsPerPage : Nat
  isNewSearch : Bool
deriving DecidableEq, Repr

/-- First revision, input onValueChange: store the new text (the debounced
onSearchChange call follows separately). -/
def onValueChange1 (s : HomeState1) (val : String) : HomeState1 :=
  { s with searchTerm := val }

/-- First revision, onSearchChange (route file lines 167 to 170): reset
currentPage to 1 and raise isNewSearch, which the search effect depends on.
The clear handler of the input invokes this same function. -/
def onSearchChange1 (s : HomeState1) : HomeState1 :=
  { s with currentPage := 1, isNewSearch := true }

/-- The request the first-revision search effect builds from the state: the
document filter carries the search text, page carries currentPage. -/
def buildRequest1 (s : HomeState1) : InvestmentSearchRequest :=
  { cik := none, cusip := none, ticker := none, issuer := none,
    investor := none, document := some s.searchTerm,
    limit := s.recordsPerPage, page := s.currentPage,
    sortColumn := s.sortColumn, sortDirection := s.sortDirection }

/-- UI state of the second revision of the Home page component (the revision
whose search effect depends on searchTerm directly). -/
structure HomeState2 where
  currentPage : Nat
  searchTerm : String
  sortColumn : String
  sortDirection : String
  recordsPerPage : Nat
deriving DecidableEq, Repr

/-- Second revision, onSearchChange (route file lines 405 to 412): a truthy
value stores the text and resets currentPage to 1; a falsy value only clears
the text and leaves currentPage unchanged. -/
def onSearchChange2 (s : HomeState2) (value : String) : HomeState2 :=
  if value != "" then { s with searchTerm := value, currentPage := 1 }
  else { s with searchTerm := "" }

/-- The request the second-revision search effect builds from the state. -/
def buildRequest2 (s : HomeState2) : InvestmentSearchRequest :=
  { cik := none, cusip := none, ticker := none, issuer := none,
    investor := none, document := some s.searchTerm,
    limit := s.recordsPerPage, page := s.currentPage,
    sortColumn := s.sortColumn, sortDirection := s.sortDirection }

/-- A fetch response as the post helper of web/services/http.js observes it:
the status code and the JSON body text. -/
structure FetchResponse where
  status : Nat
  bodyJson : String
deriving DecidableEq, Repr

/-- The ok flag of a fetch response: status in the inclusive range 200 to
299, per the fetch specification. -/
def responseOk (r : FetchResponse) : Bool :=
  decide (200 ≤ r.status ∧ r.status ≤ 299)

/-- What the post helper hands back to its caller: either the parsed body or
the tagged error object built from the caller-supplied message. -/
inductive PostResult where
  | json (body : String)
  | error (message : String)
deriving DecidableEq, Repr

/-- The post helper of web/services/http.js lines 14 to 28: when the
response is not ok, return the tagged error object with the caller-supplied
message; otherwise return the body. The helper is a total function of the
response: the non-2xx path performs a plain return, never a throw. -/
def post (r : FetchResponse) (errMsg : String) : PostResult :=
  if !(responseOk r) then PostResult.error errMsg else PostResult.json r.bodyJson

/-- A view row with every column blank, for building concrete fixtures. -/
def emptyInvestment : Investment :=
  { stock_id := "", investor_cik := "", investor_name := "",
    investor_former_names := "", investor_country := "", investor_region := "",
    other_investor_names := [], form_accession_number := "",
    form_report_date := "", form_filing_date := "", stock_issuer := "",
    stock_cusip := "", stock_ticker := "", stock_value_x1000 := "",
    stock_shares_prn_amt := "", stock_prn_amt := "",
    stock_voting_auth_sole := "", stock_voting_auth_shared := "",
    stock_voting_auth_none := "", form_url := "" }

/-- Row number n of a concrete view, distinguished by its stock_id. -/
def mkRow (n : Nat) : Investment := { emptyInvestment with stock_id := toString n }

/-- A 25-row view, in sort order. -/
def view25 : List Investment := (List.range 25).map mkRow

/-- Row number n with ticker AAPL. -/
def mkAaplRow (n : Nat) : Investment := { mkRow n with stock_ticker := "AAPL" }

/-- A 25-row view whose every row carries ticker AAPL, in sort order. -/
def view25aapl : List Investment := (List.range 25).map mkAaplRow

/-- A text-search evaluator that matches nothing; the fixtures below never
reach the document conjunct. -/
def noTsMatch : String → Investment → Bool := fun _ _ => false

/-- A request with no filters: page 1 of size 10 under the default sort. -/
def noFilterRequest : InvestmentSearchRequest :=
  { cik := none, cusip := none, ticker := none, issuer := none,
    investor := none, document := none, limit := 10, page := 1,
    sortColumn := "investor_name", sortDirection := "ascending" }

/-- The injection probe of the spec as a sortColumn value. -/
def injectionRequest : InvestmentSearchRequest :=
  { noFilterRequest with sortColumn := "1=1;DROP TABLE x" }

/-- A request filtering on investor only; cusip stays null. -/
def investorRequest : InvestmentSearchRequest :=
  { noFilterRequest with investor := some "BlackRock" }

/-- A row whose investor name contains the investor filter value. -/
def rowBlackRock : Investment :=
  { emptyInvestment with stock_id := "A", investor_name := "BlackRock Inc" }

/-- A row whose investor name contains the letters null but not the investor
filter value. -/
def rowAnnulled : Investment :=
  { emptyInvestment with stock_id := "B", investor_name := "Annulled Capital" }

/-- The document-phrase probe of the spec. -/
def documentRequest : InvestmentSearchRequest :=
  { noFilterRequest with document := some "  apple   inc " }

/-- A ticker-filtered request for page 2 of size 10. -/
def tickerPage2Request : InvestmentSearchRequest :=
  { noFilterRequest with ticker := some "AAPL", page := 2 }

/-- A request whose sortDirection is the string descending. -/
def descRequest : InvestmentSearchRequest :=
  { noFilterRequest with sortDirection := "descending" }

/-- A second-revision controller state sitting on page 5 with a live search
term. -/
def clearedState : HomeState2 :=
  { currentPage := 5, searchTerm := "apple", sortColumn := "investor_name",
    sortDirection := "ascending", recordsPerPage := 10 }

/-- A first-revision controller state sitting on page 4. -/
def someState1 : HomeState1 :=
  { currentPage := 4, searchTerm := "a", sortColumn := "investor_name",
    sortDirection := "ascending", recordsPerPage := 10, isNewSearch := false }

/-- Claim C1 (code-bug evidence): route.ts line 36 computes the offset as
limit times page rather than limit times page minus one. On a 25-row
unfiltered view with pageSize 10, page 1 gets offset 10 and returns rows 11
to 20 instead of the first 10 in sort order, and page 3 gets offset 30 and
returns 0 rows instead of the 5 the claim requires; the reported total is
still 25. -/
theorem unfilteredOffsetOffByOne :
    offset noFilterRequest = 10 ∧
    (POST view25 noTsMatch noFilterRequest).data = (view25.drop 10).take 10 ∧
    (POST view25 noTsMatch noFilterRequest).data ≠ view25.take 10 ∧
    (POST view25 noTsMatch noFilterRequest).total = 25 ∧
    (POST view25 noTsMatch { noFilterRequest with page := 3 }).data.length = 0 := by
  decide

/-- Claim C2 counterexample: with the sortColumn of the spec probe, the
handler does not fail with a validation error and a query is executed: the
injected string is interpolated verbatim into the ORDER BY fragment and the
handler answers with an ordinary result page computed from the view. -/
theorem injectionSortColumnExecutes :
    POSTResponse view25 noTsMatch injectionRequest =
      HandlerResponse.ok { data := (view25.drop 10).take 10, total := 25 } ∧
    orderByClause injectionRequest = "ORDER BY 1=1;DROP TABLE x ASC" := by
  decide

/-- Claim C2 (amended): the handler performs no allow-list validation of
sortColumn. For every request it never returns a validation error, and the
raw sortColumn string is interpolated verbatim into the ORDER BY fragment of
the query it executes. -/
theorem sortColumnNeverValidated (view : List Investment)
    (tsMatch : String → Investment → Bool) (p : InvestmentSearchRequest) :
    (∀ m, POSTResponse view tsMatch p ≠ HandlerResponse.validationError m) ∧
    orderByClause p = "ORDER BY " ++ p.sortColumn ++ " " ++ sortDirectionSql p := by
  exact ⟨fun m h => HandlerResponse.noConfusion h, rfl⟩

/-- Claim C3 (code-bug evidence): the investor conjunct on route.ts line 72
interpolates searchParams.cusip, which is null here and coerces to the
string null, instead of searchParams.investor. The row whose investor name
contains the filter value BlackRock fails the predicate, while an unrelated
row whose name happens to contain the letters null passes it, so the
filtered search counts exactly that one wrong row. -/
theorem investorFilterUsesCusipValue :
    rowMatches noTsMatch investorRequest rowBlackRock = false ∧
    rowMatches noTsMatch investorRequest rowAnnulled = true ∧
    containsCI (rowBlackRock.investor_name ++ " " ++ rowBlackRock.investor_former_names)
      (jsString investorRequest.investor) = true ∧
    (POST [rowBlackRock, rowAnnulled] noTsMatch investorRequest).total = 1 := by
  decide

/-- Claim C4 (code-bug evidence): route.ts line 74 hands the document filter
to to_tsquery verbatim; no whitespace normalization and no AND-prefix
construction happen. For the spec probe the argument is the raw string,
which differs from the normalized two-token AND-prefix query the claim
describes (and which the spec-modelled normalization indeed produces). -/
theorem documentPhrasePassedRaw :
    tsqueryArg documentRequest = some "  apple   inc " ∧
    specNormalizedTsquery "  apple   inc " = "apple & inc:*" ∧
    tsqueryArg documentRequest ≠ some (specNormalizedTsquery "  apple   inc ") := by
  decide

/-- Claim C5 (code-bug evidence): in the filtered branch the total is the
length of the full filtered set, but the in-memory slice starts at limit
times page rather than limit times page minus one. With 25 matching rows,
pageSize 10 and pageNumber 2 the slice holds 5 rows, while the claimed
formula min of pageSize and total minus pageSize times page minus one gives
10. -/
theorem filteredSliceOffsetOffByOne :
    (POST view25aapl noTsMatch tickerPage2Request).total = 25 ∧
    (POST view25aapl noTsMatch tickerPage2Request).data.length = 5 ∧
    min tickerPage2Request.limit
      ((POST view25aapl noTsMatch tickerPage2Request).total -
        tickerPage2Request.limit * (tickerPage2Request.page - 1)) = 10 ∧
    (POST view25aapl noTsMatch tickerPage2Request).data.length ≠
      min tickerPage2Request.limit
        ((POST view25aapl noTsMatch tickerPage2Request).total -
          tickerPage2Request.limit * (tickerPage2Request.page - 1)) := by
  decide

/-- Claim C6: for every request with no filter set, the reported total is
the full row count of the view, and the value is unchanged under any other
pageSize and pageNumber. -/
theorem unfilteredTotalIsViewCount (view : List Investment)
    (tsMatch : String → Investment → Bool) (p : InvestmentSearchRequest)
    (l n : Nat) (h : hasFilters p = false) :
    (POST view tsMatch p).total = view.length ∧
    (POST view tsMatch { p with limit := l, page := n }).total = view.length := by
  have h2 : hasFilters { p with limit := l, page := n } = false := h
  constructor
  · simp [POST, h]
  · simp [POST, h2]

/-- Claim C6 witness: the theorem applied to the 25-row view and the
concrete no-filter request, with pageSize 3 and pageNumber 7 as the varied
pagination values. -/
theorem unfilteredTotalIsViewCountWitness :
    (POST view25 noTsMatch noFilterRequest).total = view25.length ∧
    (POST view25 noTsMatch { noFilterRequest with limit := 3, page := 7 }).total =
      view25.length :=
  unfilteredTotalIsViewCount view25 noTsMatch noFilterRequest 3 7 (by decide)

/-- Claim C7 counterexample: in the second controller revision, clearing the
search text to empty takes the else branch of onSearchChange, which only
clears searchTerm; currentPage stays at 5, and the next request (issued
because the search effect depends on searchTerm) carries page 5, not 1. -/
theorem clearingSearchKeepsOldPage :
    (onSearchChange2 clearedState "").searchTerm = "" ∧
    (onSearchChange2 clearedState "").currentPage = 5 ∧
    (buildRequest2 (onSearchChange2 clearedState "")).page = 5 := by
  decide

/-- Claim C7 (amended): a change of the search text to a non-empty value
resets currentPage to 1 before the next request in both controller
revisions, and in the first revision clearing the text does so as well; only
the second revision leaves currentPage unchanged when the text is cleared to
empty. -/
theorem searchChangeResetsPage (s1 : HomeState1) (s2 : HomeState2)
    (val : String) (h : val ≠ "") :
    (buildRequest1 (onSearchChange1 (onValueChange1 s1 val))).page = 1 ∧
    (buildRequest1 (onSearchChange1 s1)).page = 1 ∧
    (buildRequest2 (onSearchChange2 s2 val)).page = 1 := by
  have hb : (val != "") = true := by simpa using h
  refine ⟨rfl, rfl, ?_⟩
  simp [onSearchChange2, buildRequest2, hb]

/-- Claim C7 witness: the amended theorem applied to concrete states on
pages 4 and 5 with the non-empty text apple. -/
theorem searchChangeResetsPageWitness :
    (buildRequest1 (onSearchChange1 (onValueChange1 someState1 "apple"))).page = 1 ∧
    (buildRequest1 (onSearchChange1 someState1)).page = 1 ∧
    (buildRequest2 (onSearchChange2 clearedState "apple")).page = 1 :=
  searchChangeResetsPage someState1 clearedState "apple" (by decide)

/-- Claim C8: for every fetch response that is not ok (status outside 200 to
299), the post helper returns the tagged error object carrying the
caller-supplied message; being a total function of the response, it throws
nothing past the caller. -/
theorem postNonOkReturnsTaggedError (r : FetchResponse) (errMsg : String)
    (h : responseOk r = false) :
    post r errMsg = PostResult.error errMsg := by
  simp [post, h]

/-- Claim C8 witness: the theorem applied to a status-500 response and the
error message the investment service supplies. -/
theorem postNonOkReturnsTaggedErrorWitness :
    responseOk { status := 500, bodyJson := "" } = false ∧
    post { status := 500, bodyJson := "" } "Failed to search investments." =
      PostResult.error "Failed to search investments." :=
  ⟨by decide, postNonOkReturnsTaggedError { status := 500, bodyJson := "" }
    "Failed to search investments." (by decide)⟩

/-- Claim C9: for every view, text-search evaluator and request, the
returned page holds at most pageSize rows and the reported total is at least
the number of returned rows. -/
theorem searchResultPageInvariants (view : List Investment)
    (tsMatch : String → Investment → Bool) (p : InvestmentSearchRequest) :
    (POST view tsMatch p).data.length ≤ p.limit ∧
    (POST view tsMatch p).total ≥ (POST view tsMatch p).data.length := by
  have hf : (view.filter (rowMatches tsMatch p)).length ≤ view.length :=
    List.length_filter_le _ _
  unfold POST runQuery
  cases h : hasFilters p
  all_goals simp [h, List.length_take, List.length_drop]
  all_goals omega

/-- Claim C10: the handler maps every sortDirection other than the exact
string ascending to the DESC fragment instead of rejecting the request, and
only the exact string ascending yields ASC; the ORDER BY fragment of such a
request ends in DESC. -/
theorem sortDirectionDefaultsToDescending (p : InvestmentSearchRequest)
    (h : p.sortDirection ≠ "ascending") :
    sortDirectionSql p = "DESC" ∧
    sortDirectionSql { p with sortDirection := "ascending" } = "ASC" ∧
    orderByClause p = "ORDER BY " ++ p.sortColumn ++ " DESC" := by
  have hb : (p.sortDirection == "ascending") = false := by simpa using h
  refine ⟨?_, rfl, ?_⟩
  · simp [sortDirectionSql, hb]
  · simp [orderByClause, sortColSql, sortDirectionSql, hb]
    rw [String.append_assoc]
    rfl

/-- Claim C10 witness: the theorem applied to the request whose
sortDirection is the string descending. -/
theorem sortDirectionDefaultsToDescendingWitness :
    sortDirectionSql descRequest = "DESC" ∧
    sortDirectionSql { descRequest with sortDirection := "ascending" } = "ASC" ∧
    orderByClause descRequest = "ORDER BY " ++ descRequest.sortColumn ++ " DESC" :=
  sortDirectionDefaultsToDescending descRequest (by decide)
